import Mathlib

/-!
Shallow embedding of `src/python.c` (the UJRPC CPython binding): signature
introspection (`deduce_parameters`), the per-call marshaller (`wrapper`,
built from `wrapper_arg`), and procedure registration
(`server_add_procedure`) over the static binding slot `wrap`.

Machine integers are modelled as `Nat`/`Int`; the only bit-level operations
the source performs are `&` against the flag masks `CO_VARARGS = 0x04` and
`CO_VARKEYWORDS = 0x08` and the enum-value bitwise tests on `py_param_kind_t`,
which are embedded with `&&&`/`|||` on the literal C values.
-/

/-- Values of CPython objects as far as the marshaller observes them.
`uninit` stands for any value built from uninitialized C stack memory
(the source reads local out-variables even when no getter wrote them);
float payloads are carried as opaque 64-bit tokens, since the marshaller
never computes with them. -/
inductive PyObj
  | pyBool (b : Bool)
  | pyInt (n : Int)
  | pyFloat (bits : Int)
  | pyStr (s : String)
  | uninit
deriving DecidableEq, Repr

/-- Type-annotation objects the marshaller dispatches on; `tOther` is any
annotation that is none of the five recognized scalar types. -/
inductive PyTypeTag
  | tBool
  | tInt
  | tFloat
  | tBytes
  | tStr
  | tOther
deriving DecidableEq, Repr

def PyBool_Type : PyTypeTag := PyTypeTag.tBool

def PyLong_Type : PyTypeTag := PyTypeTag.tInt

def PyFloat_Type : PyTypeTag := PyTypeTag.tFloat

def PyBytes_Type : PyTypeTag := PyTypeTag.tBytes

def PyUnicode_Type : PyTypeTag := PyTypeTag.tStr

/-- CPython subtype test restricted to the tags above; in CPython `bool`
is a subtype of `int`, every type is a subtype of itself, and the five
scalar types are otherwise unrelated. -/
def PyType_IsSubtype : PyTypeTag → PyTypeTag → Bool
  | PyTypeTag.tBool, PyTypeTag.tBool => true
  | PyTypeTag.tBool, PyTypeTag.tInt => true
  | PyTypeTag.tInt, PyTypeTag.tInt => true
  | PyTypeTag.tFloat, PyTypeTag.tFloat => true
  | PyTypeTag.tBytes, PyTypeTag.tBytes => true
  | PyTypeTag.tStr, PyTypeTag.tStr => true
  | _, _ => false

/-- `py_param_kind_t`, src/python.c lines 32-38. -/
inductive py_param_kind_t
  | POSITIONAL_ONLY
  | POSITIONAL_OR_KEYWORD
  | VAR_POSITIONAL
  | KEYWORD_ONLY
  | VAR_KEYWORD
deriving DecidableEq, Repr

/-- Integer value of each enumerator: C assigns 0, 1, 2, 3, 4 in
declaration order. -/
def kind_value : py_param_kind_t → Nat
  | py_param_kind_t.POSITIONAL_ONLY => 0
  | py_param_kind_t.POSITIONAL_OR_KEYWORD => 1
  | py_param_kind_t.VAR_POSITIONAL => 2
  | py_param_kind_t.KEYWORD_ONLY => 3
  | py_param_kind_t.VAR_KEYWORD => 4

/-- `py_param_t`, src/python.c lines 40-45. `name` is `Option` because
`PyTuple_GetItem` yields NULL on an out-of-range index. -/
structure py_param_t where
  name : Option String
  value : Option PyObj
  type : Option PyTypeTag
  kind : py_param_kind_t
deriving DecidableEq, Repr

/-- Introspection data of a Python function as `deduce_parameters` reads it:
the code object fields, `__defaults__`, `__kwdefaults__` and
`__annotations__` (dicts embedded as association lists). In CPython
`co_varnames` lists the positional parameters, then the keyword-only
parameters, then the variadic-positional and variadic-keyword names when
present, then the body's local variables. -/
structure PyFunction where
  co_varnames : List String
  co_flags : Nat
  co_argcount : Nat
  co_posonlyargcount : Nat
  co_kwonlyargcount : Nat
  defaults : List PyObj
  kwdefaults : List (String × PyObj)
  annotations : List (String × PyTypeTag)
deriving DecidableEq, Repr

def CO_VARARGS : Nat := 4

def CO_VARKEYWORDS : Nat := 8

/-- `PyDict_GetItem(annotations, name)`: absent key or NULL name yields NULL. -/
def annotation_of (f : PyFunction) : Option String → Option PyTypeTag
  | some n => f.annotations.lookup n
  | none => none

/-- Result of `deduce_parameters`: the descriptors actually written into the
malloc'ed array (in write order), and `total_params`, the size that was
malloc'ed and then stored into `wrap.params_cnt` (line 143). -/
structure deduce_result where
  parameters : List py_param_t
  total_params : Nat
deriving DecidableEq, Repr

/-- `deduce_parameters`, src/python.c lines 55-145.

The two positional loops (lines 94-111) share the countdown variable
`posonly_left`, which starts at `posonly_count` and is decremented once per
emitted positional descriptor, so the descriptor at absolute positional
index `i` gets `POSITIONAL_ONLY` exactly when `i < posonly_count`.
`total_params` (line 88) adds the raw masked flag values: `co_flags &
CO_VARARGS` is 4 when the flag is set and `co_flags & CO_VARKEYWORDS` is 8.
Line 134 computes the variadic-keyword name index with the C logical AND
`co_flags && CO_VARARGS`, which is 1 whenever `co_flags` is nonzero. -/
def deduce_parameters (f : PyFunction) : deduce_result :=
  let pos_count := f.co_argcount
  let posonly_count := f.co_posonlyargcount
  let keyword_only_count := f.co_kwonlyargcount
  let pos_default_count := f.defaults.length
  let non_default_count := pos_count - pos_default_count
  let total_params :=
    pos_count + (f.co_flags &&& CO_VARARGS) + keyword_only_count +
      (f.co_flags &&& CO_VARKEYWORDS)
  let no_default_params : List py_param_t :=
    (List.range non_default_count).map fun i =>
      { name := f.co_varnames.get? i
        value := none
        type := annotation_of f (f.co_varnames.get? i)
        kind := if i < posonly_count then py_param_kind_t.POSITIONAL_ONLY
                else py_param_kind_t.POSITIONAL_OR_KEYWORD }
  let with_default_params : List py_param_t :=
    (List.range (pos_count - non_default_count)).map fun j =>
      let i := non_default_count + j
      { name := f.co_varnames.get? i
        value := f.defaults.get? (i - non_default_count)
        type := annotation_of f (f.co_varnames.get? i)
        kind := if i < posonly_count then py_param_kind_t.POSITIONAL_ONLY
                else py_param_kind_t.POSITIONAL_OR_KEYWORD }
  let varargs_params : List py_param_t :=
    if f.co_flags &&& CO_VARARGS ≠ 0 then
      [{ name := f.co_varnames.get? (pos_count + keyword_only_count)
         value := none
         type := annotation_of f (f.co_varnames.get? (pos_count + keyword_only_count))
         kind := py_param_kind_t.VAR_POSITIONAL }]
    else []
  let kwonly_params : List py_param_t :=
    (List.range keyword_only_count).map fun j =>
      let i := pos_count + j
      { name := f.co_varnames.get? i
        value := match f.co_varnames.get? i with
                 | some n => f.kwdefaults.lookup n
                 | none => none
        type := annotation_of f (f.co_varnames.get? i)
        kind := py_param_kind_t.KEYWORD_ONLY }
  let varkw_params : List py_param_t :=
    if f.co_flags &&& CO_VARKEYWORDS ≠ 0 then
      let idx := pos_count + keyword_only_count +
        (if f.co_flags ≠ 0 ∧ CO_VARARGS ≠ 0 then 1 else 0)
      [{ name := f.co_varnames.get? idx
         value := none
         type := annotation_of f (f.co_varnames.get? idx)
         kind := py_param_kind_t.VAR_KEYWORD }]
    else []
  { parameters :=
      no_default_params ++ with_default_params ++ varargs_params ++
        kwonly_params ++ varkw_params
    total_params := total_params }

/-- Wire scalar values the engine can hand over; a float payload is an
opaque 64-bit token. -/
inductive json_t
  | jbool (b : Bool)
  | jint (n : Int)
  | jfloat (bits : Int)
  | jstr (s : String)
deriving DecidableEq, Repr

/-- Modelled from the spec: the engine-owned call context (`ujrpc_call_t`,
declared in ujrpc/ujrpc.h which is not under src/) through which the
marshaller reads one request's named and positional scalar values (spec
section 6). -/
structure ujrpc_call_t where
  named : List (String × json_t)
  positional : List json_t
deriving DecidableEq, Repr

/-- Modelled from the spec: `ujrpc_param_named_bool` — named scalar
extraction succeeds exactly when the name is present and carries a value of
the requested wire type (spec section 6). -/
def ujrpc_param_named_bool (call : ujrpc_call_t) (name : String) : Option Bool :=
  match call.named.lookup name with
  | some (json_t.jbool b) => some b
  | _ => none

/-- Modelled from the spec: `ujrpc_param_named_i64` (spec section 6). -/
def ujrpc_param_named_i64 (call : ujrpc_call_t) (name : String) : Option Int :=
  match call.named.lookup name with
  | some (json_t.jint n) => some n
  | _ => none

/-- Modelled from the spec: `ujrpc_param_named_f64` (spec section 6). -/
def ujrpc_param_named_f64 (call : ujrpc_call_t) (name : String) : Option Int :=
  match call.named.lookup name with
  | some (json_t.jfloat bits) => some bits
  | _ => none

/-- Modelled from the spec: `ujrpc_param_named_str` (spec section 6). -/
def ujrpc_param_named_str (call : ujrpc_call_t) (name : String) : Option String :=
  match call.named.lookup name with
  | some (json_t.jstr s) => some s
  | _ => none

/-- Modelled from the spec: `ujrpc_param_positional_bool` (spec section 6). -/
def ujrpc_param_positional_bool (call : ujrpc_call_t) (i : Nat) : Option Bool :=
  match call.positional.get? i with
  | some (json_t.jbool b) => some b
  | _ => none

/-- Modelled from the spec: `ujrpc_param_positional_i64` (spec section 6). -/
def ujrpc_param_positional_i64 (call : ujrpc_call_t) (i : Nat) : Option Int :=
  match call.positional.get? i with
  | some (json_t.jint n) => some n
  | _ => none

/-- Modelled from the spec: `ujrpc_param_positional_f64` (spec section 6). -/
def ujrpc_param_positional_f64 (call : ujrpc_call_t) (i : Nat) : Option Int :=
  match call.positional.get? i with
  | some (json_t.jfloat bits) => some bits
  | _ => none

/-- Modelled from the spec: `ujrpc_param_positional_str` (spec section 6). -/
def ujrpc_param_positional_str (call : ujrpc_call_t) (i : Nat) : Option String :=
  match call.positional.get? i with
  | some (json_t.jstr s) => some s
  | _ => none

/-- Line 154: `(kind & POSITIONAL_OR_KEYWORD) | (kind & KEYWORD_ONLY) |
(kind & VAR_KEYWORD)`, bitwise operations on the enum values, converted to
`bool` by the C truthiness rule. -/
def may_have_name (kind : py_param_kind_t) : Bool :=
  ((kind_value kind &&& kind_value py_param_kind_t.POSITIONAL_OR_KEYWORD) |||
   (kind_value kind &&& kind_value py_param_kind_t.KEYWORD_ONLY) |||
   (kind_value kind &&& kind_value py_param_kind_t.VAR_KEYWORD)) != 0

/-- Line 155: `(kind & POSITIONAL_OR_KEYWORD) | (kind & POSITIONAL_ONLY) |
(kind & VAR_POSITIONAL)`, likewise. -/
def may_have_pos (kind : py_param_kind_t) : Bool :=
  ((kind_value kind &&& kind_value py_param_kind_t.POSITIONAL_OR_KEYWORD) |||
   (kind_value kind &&& kind_value py_param_kind_t.POSITIONAL_ONLY) |||
   (kind_value kind &&& kind_value py_param_kind_t.VAR_POSITIONAL)) != 0

/-- One extraction attempt the marshaller makes against the call context. -/
inductive Attempt
  | byName (name : String)
  | byPos (i : Nat)
deriving DecidableEq, Repr

/-- What happens to the argument-tuple slot of one descriptor. -/
inductive ArgOutcome
  | set (v : PyObj)
  | unset
  | crash
  | garbage
deriving DecidableEq, Repr

/-- Extraction attempts made for one descriptor, in order, and the
resulting state of its tuple slot. -/
structure ArgExtraction where
  attempts : List Attempt
  outcome : ArgOutcome
deriving DecidableEq, Repr

/-- Body of the per-descriptor part of `wrapper`, src/python.c lines
151-195, for loop index `i` and descriptor `p`.

`name_len` starts at -1 and is written by `PyUnicode_AsUTF8AndSize` only
when `may_have_name` holds (lines 157-161). Each recognized scalar branch
attempts the named getter when `may_have_name && name_len > 0`, attempts
the positional getter when `may_have_pos && !got_named` (ignoring its
return value), and then unconditionally stores the out-variable into the
tuple slot, so a slot whose getters all failed receives uninitialized
memory. A NULL annotation (`type == NULL`) is dereferenced by
`PyType_IsSubtype` (line 163): undefined behaviour, embedded as `crash`.
The `PyBytes_Type` branch (lines 184-185) is an explicit `// Pass`: no
attempt is made and the slot is never set. In the `PyUnicode_Type` branch
the positional call (line 192) passes `res` by value instead of `&res`, so
a positional hit is written nowhere and the slot still receives
uninitialized memory. -/
def wrapper_arg (call : ujrpc_call_t) (i : Nat) (p : py_param_t) : ArgExtraction :=
  let may_name := may_have_name p.kind
  let may_pos := may_have_pos p.kind
  let name := p.name.getD ""
  let name_len : Int := if may_name then (name.length : Int) else -1
  let try_name := may_name && decide (0 < name_len)
  match p.type with
  | none => { attempts := [], outcome := ArgOutcome.crash }
  | some t =>
    if PyType_IsSubtype t PyBool_Type then
      let named_res := if try_name then ujrpc_param_named_bool call name else none
      let try_pos := may_pos && named_res.isNone
      let pos_res := if try_pos then ujrpc_param_positional_bool call i else none
      { attempts := (if try_name then [Attempt.byName name] else []) ++
          (if try_pos then [Attempt.byPos i] else [])
        outcome := ArgOutcome.set (match named_res, pos_res with
          | some b, _ => PyObj.pyBool b
          | none, some b => PyObj.pyBool b
          | none, none => PyObj.uninit) }
    else if PyType_IsSubtype t PyLong_Type then
      let named_res := if try_name then ujrpc_param_named_i64 call name else none
      let try_pos := may_pos && named_res.isNone
      let pos_res := if try_pos then ujrpc_param_positional_i64 call i else none
      { attempts := (if try_name then [Attempt.byName name] else []) ++
          (if try_pos then [Attempt.byPos i] else [])
        outcome := ArgOutcome.set (match named_res, pos_res with
          | some n, _ => PyObj.pyInt n
          | none, some n => PyObj.pyInt n
          | none, none => PyObj.uninit) }
    else if PyType_IsSubtype t PyFloat_Type then
      let named_res := if try_name then ujrpc_param_named_f64 call name else none
      let try_pos := may_pos && named_res.isNone
      let pos_res := if try_pos then ujrpc_param_positional_f64 call i else none
      { attempts := (if try_name then [Attempt.byName name] else []) ++
          (if try_pos then [Attempt.byPos i] else [])
        outcome := ArgOutcome.set (match named_res, pos_res with
          | some bits, _ => PyObj.pyFloat bits
          | none, some bits => PyObj.pyFloat bits
          | none, none => PyObj.uninit) }
    else if PyType_IsSubtype t PyBytes_Type then
      { attempts := [], outcome := ArgOutcome.unset }
    else if PyType_IsSubtype t PyUnicode_Type then
      let named_res := if try_name then ujrpc_param_named_str call name else none
      let try_pos := may_pos && named_res.isNone
      { attempts := (if try_name then [Attempt.byName name] else []) ++
          (if try_pos then [Attempt.byPos i] else [])
        outcome := ArgOutcome.set (match named_res with
          | some s => PyObj.pyStr s
          | none => PyObj.uninit) }
    else
      { attempts := [], outcome := ArgOutcome.unset }

/-- `max_response_length`, src/python.c line 22. -/
def max_response_length : Nat := 1024

/-- Modelled from the spec: `to_string` (declared in helpers/py_parse.hpp,
which is not under src/) serializes the returned Python object into the
caller-provided buffer of the given capacity; per spec sections 6 and 9 the
reference's fixed-capacity buffer silently truncates an oversized payload
rather than reporting it. -/
def to_string (payload : List Nat) (capacity : Nat) : List Nat :=
  payload.take capacity

/-- The reply the engine receives for one call. `ujrpc` also offers an
error-reply entry point, but src/python.c never calls it: the embedded
`wrapper` below can only ever produce `content`. -/
inductive call_reply
  | content (bytes : List Nat)
  | error (code : Int) (message : String)
deriving DecidableEq, Repr

/-- `py_wrapper_t`, src/python.c lines 47-51: the single static binding
slot `wrap` (line 53). -/
structure py_wrapper_t where
  u_params : List py_param_t
  params_cnt : Nat
  callable : Option PyFunction
deriving DecidableEq, Repr

/-- Observable effect of one `wrapper` run: the argument tuple handed to
`PyObject_CallObject` and the reply handed to `ujrpc_call_reply_content`. -/
structure WrapperResult where
  invoked_args : List ArgOutcome
  reply : call_reply
deriving DecidableEq, Repr

/-- `wrapper`, src/python.c lines 147-202. The loop runs `i` from 0 to
`wrap.params_cnt`; an index past the descriptors actually written by
`deduce_parameters` reads uninitialized malloc'ed memory (`garbage`).
The Python callable and the serialization of its return value are external
to this core, so they are abstracted as `callable_serialized`, the function
from the argument tuple to the serialized response bytes; the reply is
always `ujrpc_call_reply_content` of the `to_string` output — the code has
no error path. -/
def wrapper (w : py_wrapper_t) (callable_serialized : List ArgOutcome → List Nat)
    (call : ujrpc_call_t) : WrapperResult :=
  let args := (List.range w.params_cnt).map fun i =>
    match w.u_params.get? i with
    | some p => (wrapper_arg call i p).outcome
    | none => ArgOutcome.garbage
  { invoked_args := args
    reply := call_reply.content (to_string (callable_serialized args) max_response_length) }

/-- `py_server_t`, src/python.c lines 24-30, restricted to the fields the
claims observe; `registered_names` records the names passed on to
`ujrpc_add_procedure`. -/
structure py_server_t where
  count_added : Nat
  registered_names : List String
deriving DecidableEq, Repr

/-- The mutable state `server_add_procedure` touches: the server object and
the static binding slot `wrap`. -/
structure ModuleState where
  server : py_server_t
  wrap : py_wrapper_t
deriving DecidableEq, Repr

/-- One successful registration request: the callable and its `__name__`. -/
structure Procedure where
  name : String
  func : PyFunction
deriving DecidableEq, Repr

/-- `server_add_procedure`, src/python.c lines 204-222, success path (the
argument parsed as a callable and `deduce_parameters` returned 0): runs
`deduce_parameters` (which overwrites `wrap.u_params` and
`wrap.params_cnt`, lines 141-143), stores the callable into `wrap.callable`
(line 219), and registers the procedure's `__name__` with the engine,
always passing the one shared `wrapper` handler (line 220). It never
touches `count_added`. -/
def server_add_procedure (st : ModuleState) (proc : Procedure) : ModuleState :=
  let d := deduce_parameters proc.func
  { server := { count_added := st.server.count_added
                registered_names := st.server.registered_names ++ [proc.name] }
    wrap := { u_params := d.parameters
              params_cnt := d.total_params
              callable := some proc.func } }

/-- `server_callbacks_count`, src/python.c line 244, exposed as the server
object's length via `mp_length` (line 264). -/
def server_callbacks_count (s : py_server_t) : Nat := s.count_added

/-- The binding `wrapper` consults when the engine dispatches a call whose
target procedure name is `_target`: every registered name was given the
same `wrapper` handler (line 220), and `wrapper` reads only the static
`wrap` slot, so the target name plays no part in the lookup. -/
def consulted_wrap (st : ModuleState) (_target : String) : py_wrapper_t := st.wrap

/-- Specification formula (spec section 3): total descriptor count equals
the positional count, plus 1 if variadic-positional is present, plus the
keyword-only count, plus 1 if variadic-keyword is present. -/
def spec_descriptor_count (f : PyFunction) : Nat :=
  f.co_argcount + (if f.co_flags &&& CO_VARARGS ≠ 0 then 1 else 0) +
    f.co_kwonlyargcount + (if f.co_flags &&& CO_VARKEYWORDS ≠ 0 then 1 else 0)

/-- Specification rule (spec section 3): a descriptor is eligible for
name-based lookup iff its kind is PositionalOrKeyword, KeywordOnly, or
VariadicKeyword. -/
def spec_name_eligible : py_param_kind_t → Bool
  | py_param_kind_t.POSITIONAL_OR_KEYWORD => true
  | py_param_kind_t.KEYWORD_ONLY => true
  | py_param_kind_t.VAR_KEYWORD => true
  | _ => false

/-- Specification rule (spec section 3): a descriptor is eligible for
position-based lookup iff its kind is PositionalOnly, PositionalOrKeyword,
or VariadicPositional. -/
def spec_pos_eligible : py_param_kind_t → Bool
  | py_param_kind_t.POSITIONAL_ONLY => true
  | py_param_kind_t.POSITIONAL_OR_KEYWORD => true
  | py_param_kind_t.VAR_POSITIONAL => true
  | _ => false

/-- Specification rule (spec section 9): the variadic-keyword parameter's
name sits at the fixed raw-name-list position immediately after all
keyword-only names, one slot later when a variadic-positional parameter is
also present. -/
def spec_varkw_name (f : PyFunction) : Option String :=
  f.co_varnames.get?
    (f.co_argcount + f.co_kwonlyargcount +
      (if f.co_flags &&& CO_VARARGS ≠ 0 then 1 else 0))

/-- Whether the named getter selected by the marshaller's branch for
declared type `t` yields a value for `name`; `tBytes` and `tOther` select
no getter. -/
def named_yields (call : ujrpc_call_t) (t : PyTypeTag) (name : String) : Bool :=
  match t with
  | PyTypeTag.tBool => (ujrpc_param_named_bool call name).isSome
  | PyTypeTag.tInt => (ujrpc_param_named_i64 call name).isSome
  | PyTypeTag.tFloat => (ujrpc_param_named_f64 call name).isSome
  | PyTypeTag.tStr => (ujrpc_param_named_str call name).isSome
  | PyTypeTag.tBytes => false
  | PyTypeTag.tOther => false

/-- Introspection data of `def fn_f(x: int)` (flags: OPTIMIZED | NEWLOCALS). -/
def fn_f : PyFunction :=
  { co_varnames := ["x"]
    co_flags := 3
    co_argcount := 1
    co_posonlyargcount := 0
    co_kwonlyargcount := 0
    defaults := []
    kwdefaults := []
    annotations := [("x", PyTypeTag.tInt)] }

/-- Introspection data of `def fn_g(y: str, z: int)`. -/
def fn_g : PyFunction :=
  { co_varnames := ["y", "z"]
    co_flags := 3
    co_argcount := 2
    co_posonlyargcount := 0
    co_kwonlyargcount := 0
    defaults := []
    kwdefaults := []
    annotations := [("y", PyTypeTag.tStr), ("z", PyTypeTag.tInt)] }

/-- Introspection data of a replacement registered under the name `f`:
`def fn_f_v2(x: str, w: int)`. -/
def fn_f_v2 : PyFunction :=
  { co_varnames := ["x", "w"]
    co_flags := 3
    co_argcount := 2
    co_posonlyargcount := 0
    co_kwonlyargcount := 0
    defaults := []
    kwdefaults := []
    annotations := [("x", PyTypeTag.tStr), ("w", PyTypeTag.tInt)] }

/-- Module state right after server construction: `tp_alloc` zeroes the
object and the static `wrap` slot starts empty. -/
def st_empty : ModuleState :=
  { server := { count_added := 0, registered_names := [] }
    wrap := { u_params := [], params_cnt := 0, callable := none } }

/-- State after registering `f` (binding `fn_f`) and then `g`
(binding `fn_g`). -/
def st_f_g : ModuleState :=
  server_add_procedure (server_add_procedure st_empty { name := "f", func := fn_f })
    { name := "g", func := fn_g }

/-- State after additionally re-registering the name `f` with `fn_f_v2`. -/
def st_f_g_f2 : ModuleState :=
  server_add_procedure st_f_g { name := "f", func := fn_f_v2 }

/-- Introspection data of `def f6(a, b=2, *args, c, d=4, **kw)`
(flags: OPTIMIZED | NEWLOCALS | VARARGS | VARKEYWORDS). -/
def ex_f6 : PyFunction :=
  { co_varnames := ["a", "b", "c", "d", "args", "kw"]
    co_flags := 15
    co_argcount := 2
    co_posonlyargcount := 0
    co_kwonlyargcount := 2
    defaults := [PyObj.pyInt 2]
    kwdefaults := [("d", PyObj.pyInt 4)]
    annotations := [] }

/-- Introspection data of `def f7(a, **kw)` whose body uses one local
variable `x` (flags: OPTIMIZED | NEWLOCALS | VARKEYWORDS); in CPython the
local's name follows the parameter names in `co_varnames`. -/
def ex_f7 : PyFunction :=
  { co_varnames := ["a", "kw", "x"]
    co_flags := 11
    co_argcount := 1
    co_posonlyargcount := 0
    co_kwonlyargcount := 0
    defaults := []
    kwdefaults := []
    annotations := [] }

/-- Introspection data of `def fva(a, *args)`
(flags: OPTIMIZED | NEWLOCALS | VARARGS). -/
def ex_fva : PyFunction :=
  { co_varnames := ["a", "args"]
    co_flags := 7
    co_argcount := 1
    co_posonlyargcount := 0
    co_kwonlyargcount := 0
    defaults := []
    kwdefaults := []
    annotations := [] }

/-- A positional-or-keyword descriptor for an `int`-annotated parameter
`a` with no default. -/
def p_int_a : py_param_t :=
  { name := some "a"
    value := none
    type := some PyTypeTag.tInt
    kind := py_param_kind_t.POSITIONAL_OR_KEYWORD }

/-- A positional-or-keyword descriptor for an `int`-annotated parameter
`b` carrying the default value 9. -/
def p_int_b_default : py_param_t :=
  { name := some "b"
    value := some (PyObj.pyInt 9)
    type := some PyTypeTag.tInt
    kind := py_param_kind_t.POSITIONAL_OR_KEYWORD }

/-- A positional-only descriptor for an `int`-annotated parameter. -/
def p_posonly : py_param_t :=
  { name := some "a"
    value := none
    type := some PyTypeTag.tInt
    kind := py_param_kind_t.POSITIONAL_ONLY }

/-- A variadic-positional descriptor for an `int`-annotated parameter. -/
def p_varpos : py_param_t :=
  { name := some "args"
    value := none
    type := some PyTypeTag.tInt
    kind := py_param_kind_t.VAR_POSITIONAL }

/-- A positional-or-keyword descriptor whose declared type is `bytes`. -/
def p_bytes : py_param_t :=
  { name := some "data"
    value := none
    type := some PyTypeTag.tBytes
    kind := py_param_kind_t.POSITIONAL_OR_KEYWORD }

/-- An unannotated positional-or-keyword descriptor (`type` is NULL). -/
def p_untyped : py_param_t :=
  { name := some "data"
    value := none
    type := none
    kind := py_param_kind_t.POSITIONAL_OR_KEYWORD }

/-- Call context supplying `a = 7` by name. -/
def call_named_a : ujrpc_call_t := { named := [("a", json_t.jint 7)], positional := [] }

/-- Call context supplying nothing. -/
def call_empty : ujrpc_call_t := { named := [], positional := [] }

/-- Call context supplying the value 5 at position 0 and nothing by name. -/
def call_pos_5 : ujrpc_call_t := { named := [], positional := [json_t.jint 5] }

/-- Call context supplying `args = 1` by name. -/
def call_named_args : ujrpc_call_t := { named := [("args", json_t.jint 1)], positional := [] }

/-- Call context supplying the parameter `data` both by name and at
position 0. -/
def call_data : ujrpc_call_t :=
  { named := [("data", json_t.jstr "payload")], positional := [json_t.jstr "payload"] }

/-- Binding slot holding the two `int` descriptors above. -/
def wrap_two_ints : py_wrapper_t :=
  { u_params := [p_int_a, p_int_b_default], params_cnt := 2, callable := none }

/-- Binding slot holding only the descriptor `p_int_a`. -/
def wrap_one_int : py_wrapper_t :=
  { u_params := [p_int_a], params_cnt := 1, callable := none }

/-- Binding slot of a zero-parameter callable. -/
def wrap_no_params : py_wrapper_t :=
  { u_params := [], params_cnt := 0, callable := none }

/-- A callable whose serialized return value is the single byte 1. -/
def serialize_const : List ArgOutcome → List Nat := fun _ => [1]

/-- A serialized return value of 1025 bytes, one more than the response
buffer holds. -/
def big_payload : List Nat := List.replicate 1025 65

/-- A callable whose serialized return value is `big_payload`. -/
def serialize_big : List ArgOutcome → List Nat := fun _ => big_payload

/-- Claim C10: the server's reported procedure count (`count_added`,
exposed as the object's length through `server_callbacks_count`) is never
incremented by `server_add_procedure`: after any number of successful
registrations it still equals its value at server construction. -/
theorem c10_count_added_never_incremented (st : ModuleState) (ps : List Procedure) :
    server_callbacks_count ((ps.foldl server_add_procedure st).server) =
      server_callbacks_count st.server := by
  induction ps generalizing st with
  | nil => rfl
  | cons p ps ih => rw [List.foldl_cons, ih]; rfl

/-- Claim C1, as the code behaves: after registering `f` and then `g`, a
call dispatched to `f` consults the binding of `g` (the single static
`wrap` slot holds only the most recent registration), and re-registering
`f` clobbers `g`'s binding as well — the per-name isolation the claim
demands does not hold. -/
theorem c1_global_binding_not_per_procedure :
    (consulted_wrap st_f_g "f").u_params = (deduce_parameters fn_g).parameters ∧
    (consulted_wrap st_f_g "f").callable = some fn_g ∧
    (deduce_parameters fn_g).parameters ≠ (deduce_parameters fn_f).parameters ∧
    (consulted_wrap st_f_g_f2 "g").u_params = (deduce_parameters fn_f_v2).parameters ∧
    (deduce_parameters fn_f_v2).parameters ≠ (deduce_parameters fn_g).parameters := by
  decide

/-- Claim C2, as the code behaves: for `def fva(a, *args)` the signature's
recorded descriptor count (`total_params`, stored into `params_cnt`) is
`1 + (co_flags & CO_VARARGS) = 1 + 4 = 5`, while the spec formula gives 2
and only 2 descriptors are actually written. -/
theorem c2_total_params_uses_flag_masks :
    (deduce_parameters ex_fva).total_params = 5 ∧
    spec_descriptor_count ex_fva = 2 ∧
    (deduce_parameters ex_fva).parameters.length = 2 := by
  decide

/-- Claim C3, as the code behaves: the bitwise eligibility tests of lines
154-155 disagree with the specified kind sets — a PositionalOnly
descriptor (enum value 0) is eligible for neither lookup, a
VariadicPositional descriptor is looked up by name, and a KeywordOnly
descriptor is eligible for position-based lookup; concretely, a
positional-only parameter supplied at position 0 triggers no extraction
attempt at all, while a variadic-positional parameter is fetched by name. -/
theorem c3_eligibility_bitwise_mismatch :
    may_have_pos py_param_kind_t.POSITIONAL_ONLY = false ∧
    spec_pos_eligible py_param_kind_t.POSITIONAL_ONLY = true ∧
    may_have_name py_param_kind_t.VAR_POSITIONAL = true ∧
    spec_name_eligible py_param_kind_t.VAR_POSITIONAL = false ∧
    may_have_pos py_param_kind_t.KEYWORD_ONLY = true ∧
    spec_pos_eligible py_param_kind_t.KEYWORD_ONLY = false ∧
    (wrapper_arg call_pos_5 0 p_posonly).attempts = [] ∧
    (wrapper_arg call_named_args 0 p_varpos).attempts = [Attempt.byName "args"] := by
  decide

/-- Claim C4 counterexample: the descriptor `p_bytes` is, per the
specification's kind rules, eligible for both name-based and
position-based extraction, and its value is available by name in
`call_data`, yet the marshaller makes no extraction attempt whatsoever
(the `PyBytes_Type` branch is an explicit pass), refuting the claim that
extraction by name is always attempted first for such descriptors. -/
theorem c4_bytes_descriptor_no_name_attempt :
    spec_name_eligible p_bytes.kind = true ∧
    spec_pos_eligible p_bytes.kind = true ∧
    (wrapper_arg call_data 0 p_bytes).attempts = [] := by
  decide

/-- Claim C4 as amended: for every call and every PositionalOrKeyword
descriptor whose declared type is one of the converted scalar types (bool,
int, float, str) and whose name is nonempty, the marshaller attempts
extraction by name first and attempts extraction by position exactly when
the name-based extraction yields no value; the descriptor's outcome is
placed at the descriptor's own index in the argument tuple the callable is
invoked with. -/
theorem c4_name_first_for_scalar_pok (call : ujrpc_call_t) (w : py_wrapper_t)
    (sz : List ArgOutcome → List Nat) (i : Nat) (p : py_param_t)
    (t : PyTypeTag) (n : String)
    (hp : w.u_params.get? i = some p)
    (hi : i < w.params_cnt)
    (hkind : p.kind = py_param_kind_t.POSITIONAL_OR_KEYWORD)
    (hty : p.type = some t)
    (ht : t = PyTypeTag.tBool ∨ t = PyTypeTag.tInt ∨ t = PyTypeTag.tFloat ∨
      t = PyTypeTag.tStr)
    (hn : p.name = some n)
    (hlen : 0 < n.length) :
    (wrapper_arg call i p).attempts =
      Attempt.byName n :: (if named_yields call t n then [] else [Attempt.byPos i]) ∧
    (wrapper w sz call).invoked_args.get? i = some (wrapper_arg call i p).outcome := by
  constructor
  · obtain ⟨pn, pv, pt, pk⟩ := p
    simp only at hkind hty hn
    subst hkind
    subst hty
    subst hn
    have hd : decide ((0 : Int) < (n.length : Int)) = true :=
      decide_eq_true (by exact_mod_cast hlen)
    rcases ht with rfl | rfl | rfl | rfl
    · cases hres : ujrpc_param_named_bool call n <;>
        simp [wrapper_arg, named_yields, may_have_name, may_have_pos, kind_value,
          PyType_IsSubtype, PyBool_Type, PyLong_Type, PyFloat_Type, PyBytes_Type,
          PyUnicode_Type, hd, hres, hlen]
    · cases hres : ujrpc_param_named_i64 call n <;>
        simp [wrapper_arg, named_yields, may_have_name, may_have_pos, kind_value,
          PyType_IsSubtype, PyBool_Type, PyLong_Type, PyFloat_Type, PyBytes_Type,
          PyUnicode_Type, hd, hres, hlen]
    · cases hres : ujrpc_param_named_f64 call n <;>
        simp [wrapper_arg, named_yields, may_have_name, may_have_pos, kind_value,
          PyType_IsSubtype, PyBool_Type, PyLong_Type, PyFloat_Type, PyBytes_Type,
          PyUnicode_Type, hd, hres, hlen]
    · cases hres : ujrpc_param_named_str call n <;>
        simp [wrapper_arg, named_yields, may_have_name, may_have_pos, kind_value,
          PyType_IsSubtype, PyBool_Type, PyLong_Type, PyFloat_Type, PyBytes_Type,
          PyUnicode_Type, hd, hres, hlen]
  · have hr : (List.range w.params_cnt)[i]? = some i := List.getElem?_range hi
    have hp2 : w.u_params[i]? = some p := by
      rw [← List.get?_eq_getElem?]
      exact hp
    simp [wrapper, List.getElem?_map, hr, hp2]

/-- Claim C4 amended, witnessed at a concrete input: the descriptor
`p_int_a` in `wrap_one_int`, with the value supplied by name in
`call_named_a`. -/
theorem c4_name_first_for_scalar_pok_witness :
    (wrapper_arg call_named_a 0 p_int_a).attempts =
      Attempt.byName "a" ::
        (if named_yields call_named_a PyTypeTag.tInt "a" then [] else [Attempt.byPos 0]) ∧
    (wrapper wrap_one_int serialize_const call_named_a).invoked_args.get? 0 =
      some (wrapper_arg call_named_a 0 p_int_a).outcome :=
  c4_name_first_for_scalar_pok call_named_a wrap_one_int serialize_const 0 p_int_a
    PyTypeTag.tInt "a" rfl (by decide) rfl rfl (Or.inr (Or.inl rfl)) rfl (by decide)

/-- Claim C5, as the code behaves: with two required-by-the-wire `int`
parameters supplied neither by name nor by position, the marshaller does
not consult the stored default of `b` (9), raises no
MissingRequiredParameter error, and still invokes the callable — both
argument slots are filled from uninitialized stack memory and a normal
content reply is written. -/
theorem c5_missing_param_invokes_with_uninit :
    (wrapper wrap_two_ints serialize_const call_empty).invoked_args =
      [ArgOutcome.set PyObj.uninit, ArgOutcome.set PyObj.uninit] ∧
    (wrapper wrap_two_ints serialize_const call_empty).reply = call_reply.content [1] := by
  decide

/-- Claim C6, as the code behaves: for `def f6(a, b=2, *args, c, d=4, **kw)`
the six descriptors written match the claimed names, kinds, defaults and
order exactly, but the signature's recorded count is
`2 + 4 + 2 + 8 = 16`, not 6, so the produced signature does not consist of
exactly six descriptors. -/
theorem c6_six_descriptors_but_sixteen_count :
    (deduce_parameters ex_f6).parameters =
      [{ name := some "a", value := none, type := none,
         kind := py_param_kind_t.POSITIONAL_OR_KEYWORD },
       { name := some "b", value := some (PyObj.pyInt 2), type := none,
         kind := py_param_kind_t.POSITIONAL_OR_KEYWORD },
       { name := some "args", value := none, type := none,
         kind := py_param_kind_t.VAR_POSITIONAL },
       { name := some "c", value := none, type := none,
         kind := py_param_kind_t.KEYWORD_ONLY },
       { name := some "d", value := some (PyObj.pyInt 4), type := none,
         kind := py_param_kind_t.KEYWORD_ONLY },
       { name := some "kw", value := none, type := none,
         kind := py_param_kind_t.VAR_KEYWORD }] ∧
    (deduce_parameters ex_f6).total_params = 16 ∧
    spec_descriptor_count ex_f6 = 6 := by
  decide

/-- Claim C7, as the code behaves: for `def f7(a, **kw)` with one body
local `x`, the logical-AND index arithmetic of line 134 reads the raw name
list one slot too far, so the VariadicKeyword descriptor is named `x` (the
local) instead of `kw`, the entry at the specified fixed position. -/
theorem c7_varkw_name_misindexed :
    ((deduce_parameters ex_f7).parameters.map py_param_t.name) = [some "a", some "x"] ∧
    ((deduce_parameters ex_f7).parameters.map py_param_t.kind) =
      [py_param_kind_t.POSITIONAL_OR_KEYWORD, py_param_kind_t.VAR_KEYWORD] ∧
    spec_varkw_name ex_f7 = some "kw" ∧
    some "x" ≠ spec_varkw_name ex_f7 := by
  decide

/-- Claim C8, as the code behaves: a serialized return value of 1025 bytes
exceeds the fixed 1024-byte response buffer, yet the marshaller hands the
sink a normal content reply silently truncated to the buffer capacity —
there is no dynamic sizing and no explicit oversize error path. -/
theorem c8_oversized_reply_truncated :
    (wrapper wrap_no_params serialize_big call_empty).reply =
      call_reply.content (List.replicate 1024 65) ∧
    big_payload.length = 1025 ∧
    max_response_length = 1024 := by
  refine ⟨?_, ?_, rfl⟩
  · have hmin : min 1024 1025 = 1024 := by omega
    simp only [wrapper, wrap_no_params, serialize_big, big_payload, to_string,
      max_response_length, List.take_replicate, hmin]
  · simp only [big_payload, List.length_replicate]

/-- Claim C9, as the code behaves: a Bytes-typed parameter whose payload is
available both by name and by position is never extracted and its argument
slot is left unset (NULL in the tuple), and an unannotated parameter makes
the marshaller dereference the NULL annotation pointer. -/
theorem c9_bytes_slot_left_unset :
    wrapper_arg call_data 0 p_bytes = { attempts := [], outcome := ArgOutcome.unset } ∧
    wrapper_arg call_data 0 p_untyped = { attempts := [], outcome := ArgOutcome.crash } := by
  decide
